import Mathlib

/-!
A verification development for the RemoDesk remote-desktop extension of
PyserSSH (`src/PyserSSH/extensions/remodesk.py`).

The Python module is shallowly embedded: each method that a property talks
about becomes an executable Lean function mirroring the Python control flow,
with the external capabilities (sockets, the image codec, the byte
compressor, input injection) abstracted as oracle parameters.  Mutable
object attributes become explicit state records, and Python exceptions
become `Except`/`Option` values or explicit outcome constructors.

Contents:
* `fanoutPass`        - the loop body of `Protocol._handle_client` (broadcast
  fan-out over the viewer registry, with Python's semantics of mutating a
  list while a `for` loop iterates over it);
* `receive_exact`     - `Protocol._receive_exact` over an abstract byte
  stream and fragmentation schedule;
* `cmdLoop`           - `Protocol._handle_client_commands` over a script of
  incoming wire messages, with the two nested `try` blocks made explicit;
* `detect_activity`   - `RemoDesk._detect_activity` including Python
  truthiness of the threshold and the exact OpenCV BGR-to-gray fixed-point
  arithmetic;
* `imagenc` / `captureLoop` - `RemoDesk._imagenc` and the body of
  `RemoDesk._capture`;
* `translate_coordinates`   - `RemoDesk._translate_coordinates` over exact
  rationals with Python `int()` truncation;
* `convert_quality`   - `RemoDesk._convert_quality`;
* `wireFrame`         - the `struct.pack` framing built in `RemoDesk._capture`;
* `run` over `Ev`     - the attach/broadcast session state machine of
  `Protocol.handle_new_client` and `Protocol._handle_client`.
-/

namespace RemoDesk

/-- A registry entry of `Protocol.listclient`.  The Python entry is the list
`[client, id, channel]`; for the broadcast pass only its identity matters, so
a viewer is a natural-number identifier.  Python's `list.remove` removes the
first element comparing equal, which `List.erase` matches. -/
abbrev Viewer := Nat

/-- One fan-out pass of `Protocol._handle_client` (lines 58-63): the Python
`for iclient in self.listclient` loop with `self.listclient.remove(iclient)`
executed on send failure.  CPython's list iterator keeps a bare index that
advances after every yielded element even if the body shrank the list, which
this recursion reproduces: `idx` is the iterator index, `lst` the live list.
`fails v = true` models `iclient[2].sendall` raising for that viewer.
Returns the registry as left by the loop and the viewers that received the
frame, in send order. -/
def fanoutGo (fails : Viewer → Bool) (lst : List Viewer) (idx : Nat)
    (sent : List Viewer) : List Viewer × List Viewer :=
  if h : idx < lst.length then
    let v := lst.get ⟨idx, h⟩
    if fails v then
      fanoutGo fails (lst.erase v) (idx + 1) sent
    else
      fanoutGo fails lst (idx + 1) (sent ++ [v])
  else
    (lst, sent)
termination_by lst.length - idx
decreasing_by
  · have hv : lst.get ⟨idx, h⟩ ∈ lst := lst.get_mem _ _
    rw [List.length_erase_of_mem hv]
    omega
  · omega

/-- The fan-out pass over a freshly dequeued frame starts at iterator index 0
with nothing sent yet. -/
def fanoutPass (fails : Viewer → Bool) (lst : List Viewer) :
    List Viewer × List Viewer :=
  fanoutGo fails lst 0 []

/-- The loop of `Protocol._receive_exact` (lines 102-110).  `stream` is the
byte sequence the peer sends before closing the connection; `sched` is the
transport's fragmentation schedule (how many bytes the i-th `socket.recv`
call would deliver; a real `recv` on an open connection with data available
delivers at least one byte and never more than requested, so the schedule
entry is clamped to `[1, n - len(data)]`).  An exhausted `stream` is the
peer close: `recv` returns an empty packet and the Python code returns
`None`. -/
def recvGo (stream : List Nat) (sched : List Nat) (n : Nat) (data : List Nat) :
    Option (List Nat) :=
  if h : data.length < n then
    match stream with
    | [] => none
    | b :: rest =>
      let k := min (max (sched.headD 1) 1) (n - data.length)
      recvGo ((b :: rest).drop k) sched.tail n (data ++ (b :: rest).take k)
  else
    some data
termination_by n - data.length
decreasing_by
  simp only [List.length_append, List.length_take, List.length_cons]
  omega

/-- `Protocol._receive_exact(socket, n)`: accumulate from `data = b''`. -/
def receive_exact (stream : List Nat) (sched : List Nat) (n : Nat) :
    Option (List Nat) :=
  recvGo stream sched n []

/-- What one iteration of `Protocol._handle_client_commands` (lines 78-95)
finds on the wire, after the two `_receive_exact` calls and `pickle.loads`
are resolved against the incoming byte stream:
* `eof`: the 4-byte length read returned `None` (peer closed) - `break`;
* `sockErr`: `socket.error` raised during a read - caught by the inner
  `except socket.error` - `break`;
* `badDecode`: the reads succeeded but `pickle.loads` raised (bad pickle, or
  the body read returned `None` after a corrupt length so `loads(None)`
  raises `TypeError`) - not a `socket.error`, so it escapes the inner `try`;
* `dispatchRaise`: the command decoded but `handle_commands` raised (e.g.
  `KeyError` on a missing `action`/`data` field, or an injection call
  failing) - also escapes the inner `try`;
* `falsy`: the command decoded to a falsy value - `if command:` skips
  dispatch and the loop continues;
* `good c`: the command decoded and `handle_commands c` returned normally. -/
inductive CmdMsg where
  | eof
  | sockErr
  | badDecode
  | dispatchRaise
  | falsy
  | good (c : Nat)
deriving DecidableEq

/-- How `_handle_client_commands` terminated: `graceful` is the `break` on a
`None` length read (or the modelled script running out while the loop blocks
on the next read), `socketBreak` the `break` on `socket.error`, and
`loggedError` the outer `except Exception` handler at lines 96-97, which
logs the error - and, because it wraps the whole `while True`, ends the
loop. -/
inductive LoopEnd where
  | graceful
  | socketBreak
  | loggedError
deriving DecidableEq

/-- The `while True` loop of `Protocol._handle_client_commands` run against a
script of incoming messages.  Returns the commands that were dispatched (in
order) and how the loop ended.  The decisive control-flow fact mirrored from
the source: only `socket.error` is caught inside the loop; every other
exception propagates to the outer handler, which logs once and leaves the
function. -/
def cmdLoop : List CmdMsg → List Nat × LoopEnd
  | [] => ([], LoopEnd.graceful)
  | CmdMsg.eof :: _ => ([], LoopEnd.graceful)
  | CmdMsg.sockErr :: _ => ([], LoopEnd.socketBreak)
  | CmdMsg.badDecode :: _ => ([], LoopEnd.loggedError)
  | CmdMsg.dispatchRaise :: _ => ([], LoopEnd.loggedError)
  | CmdMsg.falsy :: rest => cmdLoop rest
  | CmdMsg.good c :: rest =>
    let r := cmdLoop rest
    (c :: r.1, r.2)

/-- A BGR pixel of a captured frame (uint8 channel values). -/
structure Pix where
  b : Nat
  g : Nat
  r : Nat
deriving DecidableEq

/-- A frame as seen by `_detect_activity`: the flattened pixel array (pixel
counts are all that the activity decision consumes, so row structure is not
kept). -/
abbrev Frame := List Pix

/-- `cv2.absdiff` on uint8 data: per-channel absolute difference (no
saturation can occur since both inputs are below 256). -/
def absdiffPix (p q : Pix) : Pix :=
  ⟨max p.b q.b - min p.b q.b, max p.g q.g - min p.g q.g,
   max p.r q.r - min p.r q.r⟩

/-- `cv2.cvtColor(-, cv2.COLOR_BGR2GRAY)` on one uint8 pixel, with OpenCV's
exact fixed-point coefficients: y = (B*1868 + G*9617 + R*4899 + 2^13) >> 14
(the coefficients sum to 2^14, so y stays below 256). -/
def grayOf (p : Pix) : Nat :=
  (p.b * 1868 + p.g * 9617 + p.r * 4899 + 8192) / 16384

/-- `cv2.threshold(gray, t, 255, cv2.THRESH_BINARY)`: strictly-greater test,
output pixel 255 or 0. -/
def threshMask (t : Int) (gs : List Nat) : List Nat :=
  gs.map (fun g => if (g : Int) > t then 255 else 0)

/-- `np.count_nonzero`. -/
def nonzeroCount (xs : List Nat) : Nat :=
  xs.countP (fun x => decide (x ≠ 0))

/-- The pixel count computed at lines 179-188 of `_detect_activity`:
absdiff, gray conversion, binary threshold, nonzero count. -/
def diffMaskCount (t : Int) (cur prev : Frame) : Nat :=
  nonzeroCount (threshMask t ((List.zipWith absdiffPix cur prev).map grayOf))

/-- The `RemoDesk` attributes read and written by `_detect_activity`:
`self.threshold` (constructor default `None`, any int accepted) and
`self.previous_frame`. -/
structure DetectState where
  threshold : Option Int
  previous_frame : Option Frame
deriving DecidableEq

/-- Python truthiness of the optional-int `self.threshold` as tested by
`if self.threshold:` - `None` and `0` are falsy, every other int truthy. -/
def intTruthy : Option Int → Bool
  | none => false
  | some t => t != 0

/-- `RemoDesk._detect_activity` (lines 172-196): returns the decision and
the updated state. -/
def detect_activity (s : DetectState) (cur : Frame) : Bool × DetectState :=
  if intTruthy s.threshold then
    match s.previous_frame with
    | none => (false, { s with previous_frame := some cur })
    | some prev =>
      let cnt := diffMaskCount (s.threshold.getD 0) cur prev
      (decide (cnt > 500), { s with previous_frame := some cur })
  else
    (true, s)

/-- The two exceptions `RemoDesk._imagenc` can raise: `TypeError` for a
format outside jpeg/webp/avif, `ValueError` when the codec reports
`retval = False`. -/
inductive EncErr where
  | unsupportedFormat
  | encodeFailure
deriving DecidableEq

/-- `RemoDesk._imagenc` (lines 198-212).  The three `cv2.imencode` branches
differ only in the codec flag passed to the external encoder, so the codec
call is one oracle `(retval, buf)`; the `else: raise TypeError` and the
`if not retval: raise ValueError` are the two error exits. -/
def imagenc (format : String) (retval : Bool) (buf : List Nat) :
    Except EncErr (List Nat) :=
  if format = "webp" ∨ format = "jpeg" ∨ format = "avif" then
    if retval then Except.ok buf else Except.error EncErr.encodeFailure
  else
    Except.error EncErr.unsupportedFormat

/-- Big-endian 4-byte encoding of an unsigned 32-bit integer, as
`struct.pack` produces for one `!I` field (defined for n < 2^32; `struct`
raises beyond that, which theorems exclude by hypothesis). -/
def u32be (n : Nat) : List Nat :=
  [n / 2 ^ 24 % 256, n / 2 ^ 16 % 256, n / 2 ^ 8 % 256, n % 256]

/-- The integer a 4-byte big-endian field denotes (consumer side). -/
def u32beVal : List Nat → Nat
  | [a, b, c, d] => a * 2 ^ 24 + b * 2 ^ 16 + c * 2 ^ 8 + d
  | _ => 0

/-- `struct.pack` with format `!III`. -/
def packIII (a b c : Nat) : List Nat :=
  u32be a ++ u32be b ++ u32be c

/-- The wire frame assembled at lines 245-246 of `_capture`:
`struct.pack('!III', len(data), width, height) + data`. -/
def wireFrame (payload : List Nat) (w h : Nat) : List Nat :=
  packIII payload.length w h ++ payload

/-- `RemoDesk._convert_quality` (lines 223-227).  The Python
`int(quality / 100 * 11)` and `int(10 + quality / 100 * (24 - 10))` are
float arithmetic truncated toward zero; for integer quality the exact
rational value is at least 1/100 away from any integer it does not equal,
far beyond double rounding error, so truncation agrees with Nat floor
division. -/
def convert_quality (quality : Nat) : Nat × Nat :=
  (quality * 11 / 100, 10 + quality * 14 / 100)

/-- The per-iteration oracle data for one pass of the `_capture` loop:
whether `_detect_activity` returned true for the captured frame, and the
codec outcome `(retval, buf)` of `cv2.imencode` inside `_imagenc`. -/
structure CapIter where
  active : Bool
  retval : Bool
  buf : List Nat

/-- The `while self.running` loop of `RemoDesk._capture` (lines 229-249)
run over a script of capture iterations (exhausting the script models the
`running` flag being cleared).  Screen capture, resize and resolution
adoption are abstracted: `w`, `h` is the session resolution; `comp` is the
brotli compressor oracle applied when `compress2` is set.  Returns the wire
frames put on the queue, and `some e` when an `_imagenc` exception `e`
escaped `_capture` - the function body has no try/except, so the exception
ends the loop (and the daemon thread) at that iteration; nothing later in
the script runs. -/
def captureLoop (format : String) (compress2 : Bool)
    (comp : List Nat → List Nat) (w h : Nat) :
    List CapIter → List (List Nat) × Option EncErr
  | [] => ([], none)
  | it :: rest =>
    if it.active then
      match imagenc format it.retval it.buf with
      | Except.error e => ([], some e)
      | Except.ok data0 =>
        let data := if compress2 then comp data0 else data0
        let r := captureLoop format compress2 comp w h rest
        (wireFrame data w h :: r.1, r.2)
    else
      captureLoop format compress2 comp w h rest

/-- Python `int()` applied to an exact real value: truncation toward zero. -/
def pytrunc (q : ℚ) : ℤ :=
  if 0 ≤ q then ⌊q⌋ else ⌈q⌉

/-- `RemoDesk._translate_coordinates` (lines 214-221) over exact rationals.
`resolution` is `self.resolution` (`None` is falsy for `if self.resolution:`;
a stored pair, being a non-empty tuple, is truthy); `screensize` is
`self.screensize`.  The products keep the source grouping
`x * (screensize / resolution)`. -/
def translate_coordinates (resolution : Option (Nat × Nat))
    (screensize : Nat × Nat) (x y : ℚ) : ℤ × ℤ :=
  match resolution with
  | some res =>
    (pytrunc (x * ((screensize.1 : ℚ) / (res.1 : ℚ))),
     pytrunc (y * ((screensize.2 : ℚ) / (res.2 : ℚ))))
  | none =>
    (pytrunc (x * ((screensize.1 : ℚ) / 1920)),
     pytrunc (y * ((screensize.2 : ℚ) / 1090)))

/-- The mutable `Protocol` attributes that carry the session lifecycle
(`listclient`, `first`, `running`), plus a ghost counter of how many
producer/broadcaster pairs have been started - each run of the
`if self.first:` branch of `handle_new_client` starts one `_handle_client`
thread and, through `RemoDesk.init`, one `_capture` thread. -/
structure SessionState where
  listclient : List Viewer
  first : Bool
  running : Bool
  started : Nat
deriving DecidableEq

/-- `Protocol.__init__`: empty registry, `first = True`, `running = False`. -/
def initState : SessionState :=
  ⟨[], true, false, 0⟩

/-- The success path of `Protocol.handle_new_client` (lines 126-138): append
the viewer, and if `first`, set `running`, start the pipeline pair, clear
`first`.  (The handshake-timeout path returns before touching any state and
is omitted.) -/
def stepAttach (s : SessionState) (v : Viewer) : SessionState :=
  let s1 : SessionState := { s with listclient := s.listclient ++ [v] }
  if s1.first then
    { s1 with running := true, first := false, started := s1.started + 1 }
  else
    s1

/-- One iteration of the `while self.running` loop of `_handle_client`
(lines 55-69): dequeue a frame, fan it out over the registry, and if the
registry is now empty, set `running = False`, `first = True` and leave the
loop.  A broadcast event is only enabled while the loop runs, i.e. while
`running` holds. -/
def stepBroadcast (s : SessionState) (fails : Viewer → Bool) : SessionState :=
  if s.running then
    let l := (fanoutPass fails s.listclient).1
    if l.isEmpty then
      { s with listclient := l, running := false, first := true }
    else
      { s with listclient := l }
  else
    s

/-- The session-level events: a viewer attaching (`handle_new_client`
succeeding) or the broadcaster completing one fan-out pass in which sending
to viewer `v` raises iff `fails v`. -/
inductive Ev where
  | attach (v : Viewer)
  | broadcast (fails : Viewer → Bool)

/-- Event interpreter. -/
def step (s : SessionState) : Ev → SessionState
  | Ev.attach v => stepAttach s v
  | Ev.broadcast fails => stepBroadcast s fails

/-- The session state after a sequence of events from a fresh `Protocol`. -/
def run (evs : List Ev) : SessionState :=
  evs.foldl step initState

/-- The lifecycle invariant tying the three `Protocol` flags together: the
pipeline runs iff the registry is non-empty, and `first` records exactly
that the registry is empty (so the next attach starts a fresh pipeline). -/
def Inv (s : SessionState) : Prop :=
  s.running = !s.listclient.isEmpty ∧ s.first = s.listclient.isEmpty

/-- Appending a viewer leaves the registry non-empty. -/
theorem isEmpty_append_singleton (l : List Viewer) (v : Viewer) :
    (l ++ [v]).isEmpty = false := by
  cases l <;> rfl

/-- A fresh `Protocol` satisfies the lifecycle invariant. -/
theorem inv_initState : Inv initState :=
  ⟨rfl, rfl⟩

/-- `handle_new_client` preserves the lifecycle invariant. -/
theorem inv_stepAttach (s : SessionState) (v : Viewer) (hs : Inv s) :
    Inv (stepAttach s v) := by
  obtain ⟨h1, h2⟩ := hs
  unfold Inv stepAttach
  cases hl : s.listclient.isEmpty with
  | true =>
    rw [hl] at h2
    simp [h2, isEmpty_append_singleton]
  | false =>
    rw [hl] at h1 h2
    simp only [Bool.not_false] at h1
    simp [h2, h1, isEmpty_append_singleton]

/-- One broadcaster iteration preserves the lifecycle invariant. -/
theorem inv_stepBroadcast (s : SessionState) (fails : Viewer → Bool)
    (hs : Inv s) : Inv (stepBroadcast s fails) := by
  obtain ⟨h1, h2⟩ := hs
  unfold Inv stepBroadcast
  split
  · rename_i hr
    have hne : s.listclient.isEmpty = false := by
      rw [hr] at h1
      cases hl : s.listclient.isEmpty
      · rfl
      · rw [hl] at h1; simp at h1
    by_cases he : ((fanoutPass fails s.listclient).1).isEmpty = true
    · simp [he]
    · rw [Bool.not_eq_true] at he
      simp [he, hr, h2, hne]
  · exact ⟨h1, h2⟩

/-- The lifecycle invariant holds along every event sequence. -/
theorem inv_foldl (evs : List Ev) (s : SessionState) (hs : Inv s) :
    Inv (evs.foldl step s) := by
  induction evs generalizing s with
  | nil => exact hs
  | cons e rest ih =>
    cases e with
    | attach v => exact ih _ (inv_stepAttach s v hs)
    | broadcast fails => exact ih _ (inv_stepBroadcast s fails hs)

/-- In an invariant state, an attach bumps the pipeline-start counter
exactly when the registry was empty, and always leaves the session running
on a non-empty registry. -/
theorem stepAttach_facts (s : SessionState) (v : Viewer) (hs : Inv s) :
    (stepAttach s v).started =
      s.started + (if s.listclient.isEmpty = true then 1 else 0) ∧
    (stepAttach s v).running = true ∧
    (stepAttach s v).listclient.isEmpty = false := by
  obtain ⟨h1, h2⟩ := hs
  unfold stepAttach
  cases hl : s.listclient.isEmpty with
  | true =>
    rw [hl] at h2
    simp [h2, isEmpty_append_singleton]
  | false =>
    rw [hl] at h1 h2
    simp only [Bool.not_false] at h1
    simp [h2, h1, isEmpty_append_singleton]

/-- Running one more event composes with `step`. -/
theorem run_append_single (evs : List Ev) (e : Ev) :
    run (evs ++ [e]) = step (run evs) e := by
  unfold run
  rw [List.foldl_append]
  rfl

/-- The `_receive_exact` accumulation loop never stops with a buffer
shorter than requested: it returns `none` or exactly `n` bytes, provided it
starts with at most `n` bytes accumulated. -/
theorem recvGo_none_or_exact (stream sched : List Nat) (n : Nat)
    (data : List Nat) :
    data.length ≤ n →
    recvGo stream sched n data = none ∨
      ∃ d, recvGo stream sched n data = some d ∧ d.length = n := by
  induction stream, sched, n, data using recvGo.induct with
  | case1 sched n data h =>
    intro _
    left
    rw [recvGo]
    simp [h]
  | case2 sched n data h b rest k ih =>
    intro _
    rw [recvGo]
    simp only [dif_pos h]
    apply ih
    simp only [List.length_append, List.length_take, List.length_cons]
    omega
  | case3 stream sched n data h =>
    intro hle
    rw [recvGo.eq_def]
    simp only [dif_neg h]
    right
    exact ⟨data, rfl, by omega⟩

/-- A 4-byte big-endian field decodes back to the packed integer. -/
theorem u32beVal_u32be (n : Nat) (hn : n < 2 ^ 32) : u32beVal (u32be n) = n := by
  simp only [u32be, u32beVal]
  omega

/-- C1: evaluation of the fan-out pass at the failing input.  With registry
`[0, 1, 2]` and the send to viewer 0 failing (all other sends succeeding),
the code removes exactly viewer 0 - but, because `list.remove` shifts the
iterator past viewer 1, only viewer 2 receives the frame: viewer 1 is still
registered afterwards yet got nothing, contradicting the claim that every
other viewer registered at dequeue time receives the frame. -/
theorem C1_failed_send_skips_next_viewer :
    fanoutPass (fun v => decide (v = 0)) [0, 1, 2] = ([1, 2], [2]) ∧
    (1 : Viewer) ∈ (fanoutPass (fun v => decide (v = 0)) [0, 1, 2]).1 ∧
    (1 : Viewer) ∉ (fanoutPass (fun v => decide (v = 0)) [0, 1, 2]).2 := by
  refine ⟨?_, by simp [fanoutPass, fanoutGo], by simp [fanoutPass, fanoutGo]⟩
  simp [fanoutPass, fanoutGo]

/-- C2: for every attach/broadcast event sequence, the pipeline runs iff the
viewer registry is non-empty and `first` marks exactly the idle states; an
attach starts a producer/broadcaster pair exactly when the registry was
empty (a second attach while active starts none), attaching always leaves
the session running on a non-empty registry, and after any broadcast pass
the running/first flags again track registry emptiness - in particular a
pass that empties the registry clears `running` and resets `first`. -/
theorem C2_pipeline_runs_iff_registry_nonempty (evs : List Ev) (v : Viewer)
    (fails : Viewer → Bool) :
    ((run evs).running = !(run evs).listclient.isEmpty) ∧
    ((run evs).first = (run evs).listclient.isEmpty) ∧
    ((run (evs ++ [Ev.attach v])).started =
       (run evs).started +
         (if (run evs).listclient.isEmpty = true then 1 else 0)) ∧
    ((run (evs ++ [Ev.attach v])).running = true) ∧
    ((run (evs ++ [Ev.attach v])).listclient.isEmpty = false) ∧
    ((run (evs ++ [Ev.broadcast fails])).running =
       !(run (evs ++ [Ev.broadcast fails])).listclient.isEmpty) ∧
    ((run (evs ++ [Ev.broadcast fails])).first =
       (run (evs ++ [Ev.broadcast fails])).listclient.isEmpty) := by
  have hs : Inv (run evs) := inv_foldl evs initState inv_initState
  have ha := stepAttach_facts (run evs) v hs
  have hb : Inv (stepBroadcast (run evs) fails) :=
    inv_stepBroadcast (run evs) fails hs
  rw [run_append_single, run_append_single]
  exact ⟨hs.1, hs.2, ha.1, ha.2.1, ha.2.2, hb.1, hb.2⟩

/-- C3, counterexample: a structurally invalid message does not let the loop
continue.  On the script "bad pickle, then a well-formed command 7", the
loop ends at the first message through the outer logged handler and command
7 is never dispatched - refuting the claim that the error is logged and the
loop continues to the next message. -/
theorem C3_invalid_message_ends_loop_cex :
    cmdLoop [CmdMsg.badDecode, CmdMsg.good 7] = ([], LoopEnd.loggedError) ∧
    (7 : Nat) ∉ (cmdLoop [CmdMsg.badDecode, CmdMsg.good 7]).1 := by
  decide

/-- C3, amended: a structurally invalid command body, and a dispatch that
raises, are caught only by the outer handler of `_handle_client_commands`,
which logs and ends that viewer's loop (remaining messages are never read);
a normally-dispatched command continues the loop, a falsy command is
skipped, and socket errors / EOF end the loop silently. -/
theorem C3_error_handling_amended (rest : List CmdMsg) (c : Nat) :
    cmdLoop (CmdMsg.badDecode :: rest) = ([], LoopEnd.loggedError) ∧
    cmdLoop (CmdMsg.dispatchRaise :: rest) = ([], LoopEnd.loggedError) ∧
    cmdLoop (CmdMsg.good c :: rest) = (c :: (cmdLoop rest).1, (cmdLoop rest).2) ∧
    cmdLoop (CmdMsg.falsy :: rest) = cmdLoop rest ∧
    cmdLoop (CmdMsg.sockErr :: rest) = ([], LoopEnd.socketBreak) ∧
    cmdLoop (CmdMsg.eof :: rest) = ([], LoopEnd.graceful) := by
  simp [cmdLoop]

/-- C4, counterexample: an encoding failure is not confined to its
iteration.  A codec failure (`retval = False`) on the first of two active
iterations ends the capture loop with the `ValueError` escaping - the
second iteration never runs and no frame is ever pushed; likewise an
unsupported format raises `TypeError` on the first active iteration.  This
refutes the claim that the loop continues with the next iteration. -/
theorem C4_encode_failure_kills_capture_cex :
    captureLoop "jpeg" false id 8 6 [⟨true, false, [1]⟩, ⟨true, true, [2]⟩] =
      ([], some EncErr.encodeFailure) ∧
    captureLoop "png" false id 8 6 [⟨true, true, [1]⟩, ⟨true, true, [2]⟩] =
      ([], some EncErr.unsupportedFormat) := by
  constructor <;> rfl

/-- C4, amended: an encoding failure in an active iteration of `_capture`
is fatal to the whole loop, not just the iteration: `_capture` has no
exception handler, so the `_imagenc` exception propagates, no frame is
pushed for that iteration, and no later iteration runs (the capture thread
dies; the module logs nothing for it). -/
theorem C4_encode_failure_fatal_amended (format : String) (compress2 : Bool)
    (comp : List Nat → List Nat) (w h : Nat) (it : CapIter)
    (rest : List CapIter) (e : EncErr) (hact : it.active = true)
    (henc : imagenc format it.retval it.buf = Except.error e) :
    captureLoop format compress2 comp w h (it :: rest) = ([], some e) := by
  simp [captureLoop, hact, henc]

/-- C4, witness for the amended theorem at a concrete input. -/
theorem C4_encode_failure_fatal_amended_witness :
    CapIter.active ⟨true, true, [1]⟩ = true ∧
    imagenc "png" true [1] = Except.error EncErr.unsupportedFormat ∧
    captureLoop "png" true id 4 3 [⟨true, true, [1]⟩] =
      ([], some EncErr.unsupportedFormat) :=
  ⟨rfl, rfl,
   C4_encode_failure_fatal_amended "png" true id 4 3 ⟨true, true, [1]⟩ []
     EncErr.unsupportedFormat rfl rfl⟩

/-- C5, counterexample: a configured threshold of 0 is falsy for the
Python test `if self.threshold:`, so the very first call returns `true`
and stores nothing - refuting the claim that for every configured
threshold the first call returns `false` and stores the frame. -/
theorem C5_zero_threshold_cex :
    (detect_activity ⟨some 0, none⟩ [⟨1, 1, 1⟩]).1 = true ∧
    (detect_activity ⟨some 0, none⟩ [⟨1, 1, 1⟩]).2 = ⟨some 0, none⟩ := by
  decide

/-- C5, amended: whenever the stored threshold is falsy (absent or zero),
`_detect_activity` returns `true` and leaves the state untouched; whenever
a nonzero threshold is configured, the very first call (no previous frame)
returns `false` and stores the frame, so the first captured frame is never
sent. -/
theorem C5_detector_gate_amended :
    (∀ s cur, intTruthy s.threshold = false → detect_activity s cur = (true, s)) ∧
    (∀ t : Int, t ≠ 0 → ∀ cur : Frame,
      detect_activity ⟨some t, none⟩ cur = (false, ⟨some t, some cur⟩)) := by
  constructor
  · intro s cur hf
    simp [detect_activity, hf]
  · intro t ht cur
    simp [detect_activity, intTruthy, ht]

/-- C5, witness for the amended theorem at concrete inputs. -/
theorem C5_detector_gate_amended_witness :
    intTruthy none = false ∧
    detect_activity ⟨none, none⟩ [] = (true, ⟨none, none⟩) ∧
    (30 : Int) ≠ 0 ∧
    detect_activity ⟨some 30, none⟩ [⟨1, 2, 3⟩] =
      (false, ⟨some 30, some [⟨1, 2, 3⟩]⟩) :=
  ⟨rfl, C5_detector_gate_amended.1 ⟨none, none⟩ [] rfl, by decide,
   C5_detector_gate_amended.2 30 (by decide) [⟨1, 2, 3⟩]⟩

/-- C6, counterexample: with configured threshold 0 (falsy) and a stored
previous frame, a one-pixel all-black-to-all-white change has a diff count
of 1 (at most 500, so the claim demands `false` and an update of the stored
frame to the current one), yet the code returns `true` and leaves the
stored frame unchanged. -/
theorem C6_zero_threshold_cex :
    diffMaskCount 0 [⟨255, 255, 255⟩] [⟨0, 0, 0⟩] = 1 ∧
    (detect_activity ⟨some 0, some [⟨0, 0, 0⟩]⟩ [⟨255, 255, 255⟩]).1 = true ∧
    (detect_activity ⟨some 0, some [⟨0, 0, 0⟩]⟩ [⟨255, 255, 255⟩]).2.previous_frame =
      some [⟨0, 0, 0⟩] := by
  decide

/-- C6, amended: for every configured nonzero threshold `t` and every
non-first call with current frame `B` after previous frame `A`, the result
is `true` iff the count of nonzero pixels of the thresholded
absolute-difference mask exceeds 500, and the stored previous frame is
updated to `B` regardless of the decision. -/
theorem C6_diff_count_decision_amended (t : Int) (ht : t ≠ 0) (A B : Frame) :
    detect_activity ⟨some t, some A⟩ B =
      (decide (diffMaskCount t B A > 500), ⟨some t, some B⟩) := by
  simp [detect_activity, intTruthy, ht]

/-- C6, witness for the amended theorem at a concrete input: threshold 30,
a single pixel changing from black to white (diff count 1, at most 500),
so the decision is `false` and the frame is stored anyway. -/
theorem C6_diff_count_decision_amended_witness :
    (30 : Int) ≠ 0 ∧
    detect_activity ⟨some 30, some [⟨0, 0, 0⟩]⟩ [⟨255, 255, 255⟩] =
      (false, ⟨some 30, some [⟨255, 255, 255⟩]⟩) := by
  refine ⟨by decide, ?_⟩
  rw [C6_diff_count_decision_amended 30 (by decide) [⟨0, 0, 0⟩] [⟨255, 255, 255⟩]]
  decide

/-- C7: `_translate_coordinates` computes
`(int(x * nativeWidth / resolutionWidth), int(y * nativeHeight / resolutionHeight))`
when a resolution is set, scales against the fixed reference 1920 by 1090
when none is set, maps (0, 0) to (0, 0) in every configuration, and is the
identity on (960, 545) when resolution and native size are both
(1920, 1090). -/
theorem C7_translate_coordinates_formula (resolution : Option (Nat × Nat))
    (screensize : Nat × Nat) (x y : ℚ) (resw resh : Nat) :
    (translate_coordinates (some (resw, resh)) screensize x y =
      (pytrunc (x * (screensize.1 : ℚ) / (resw : ℚ)),
       pytrunc (y * (screensize.2 : ℚ) / (resh : ℚ)))) ∧
    (translate_coordinates none screensize x y =
      (pytrunc (x * (screensize.1 : ℚ) / 1920),
       pytrunc (y * (screensize.2 : ℚ) / 1090))) ∧
    translate_coordinates resolution screensize 0 0 = (0, 0) ∧
    translate_coordinates (some (1920, 1090)) (1920, 1090) 960 545 =
      (960, 545) := by
  refine ⟨by simp [translate_coordinates, mul_div_assoc],
    by simp [translate_coordinates, mul_div_assoc], ?_,
    by norm_num [translate_coordinates, pytrunc]⟩
  cases resolution with
  | none => simp [translate_coordinates, pytrunc]
  | some res => simp [translate_coordinates, pytrunc]

/-- C8: every pushed wire frame is exactly the 12-byte header of three
unsigned 32-bit big-endian fields (payload length, width, height) followed
by the payload bytes, and the first field decodes to the exact byte length
of the payload that follows. -/
theorem C8_wire_frame_format (payload : List Nat) (w h : Nat)
    (hp : payload.length < 2 ^ 32) (hw : w < 2 ^ 32) (hh : h < 2 ^ 32) :
    wireFrame payload w h =
      u32be payload.length ++ u32be w ++ u32be h ++ payload ∧
    (packIII payload.length w h).length = 12 ∧
    (wireFrame payload w h).take 12 = packIII payload.length w h ∧
    (wireFrame payload w h).drop 12 = payload ∧
    u32beVal (u32be payload.length) = payload.length ∧
    u32beVal (u32be w) = w ∧
    u32beVal (u32be h) = h := by
  have hlen : (packIII payload.length w h).length = 12 := rfl
  refine ⟨by simp [wireFrame, packIII], hlen, ?_, ?_,
    u32beVal_u32be _ hp, u32beVal_u32be _ hw, u32beVal_u32be _ hh⟩
  · rw [wireFrame, ← hlen, List.take_left]
  · rw [wireFrame, ← hlen, List.drop_left]

/-- C8, witness at a concrete frame: payload `[9, 8, 7]`, width 800,
height 600. -/
theorem C8_wire_frame_format_witness :
    ([9, 8, 7] : List Nat).length < 2 ^ 32 ∧ 800 < 2 ^ 32 ∧ 600 < 2 ^ 32 ∧
    (wireFrame [9, 8, 7] 800 600).take 12 = packIII 3 800 600 ∧
    (wireFrame [9, 8, 7] 800 600).drop 12 = [9, 8, 7] ∧
    u32beVal (u32be 3) = 3 := by
  have h := C8_wire_frame_format [9, 8, 7] 800 600 (by norm_num) (by norm_num)
    (by norm_num)
  exact ⟨by norm_num, by norm_num, by norm_num, h.2.2.1, h.2.2.2.1, h.2.2.2.2.1⟩

/-- C9: `_convert_quality` is monotonically non-decreasing in both outputs
on 0-100, keeps the brotli quality in [0, 11] (a Nat is nonnegative) and
the window size in [10, 24], with endpoints (0, 10) at 0 and (11, 24) at
100. -/
theorem C9_convert_quality_monotone_bounds (q q' : Nat) (hq : q ≤ 100)
    (hq' : q' ≤ q) :
    (convert_quality q').1 ≤ (convert_quality q).1 ∧
    (convert_quality q').2 ≤ (convert_quality q).2 ∧
    (convert_quality q).1 ≤ 11 ∧
    10 ≤ (convert_quality q).2 ∧
    (convert_quality q).2 ≤ 24 ∧
    convert_quality 0 = (0, 10) ∧
    convert_quality 100 = (11, 24) := by
  simp [convert_quality]
  omega

/-- C9, witness at the concrete qualities 30 and 7. -/
theorem C9_convert_quality_monotone_bounds_witness :
    (30 : Nat) ≤ 100 ∧ (7 : Nat) ≤ 30 ∧
    (convert_quality 7).1 ≤ (convert_quality 30).1 ∧
    (convert_quality 30).1 ≤ 11 ∧
    convert_quality 100 = (11, 24) := by
  have h := C9_convert_quality_monotone_bounds 30 7 (by decide) (by decide)
  exact ⟨by decide, by decide, h.1, h.2.2.1, h.2.2.2.2.2.2⟩

/-- C10: `_receive_exact` is all-or-nothing - for every byte stream, every
fragmentation schedule and every requested count `n`, it returns either a
byte string of length exactly `n` (accumulated across arbitrarily
fragmented reads) or `None` when the stream is exhausted first; it never
returns a buffer of any other length. -/
theorem C10_receive_exact_all_or_nothing (stream sched : List Nat) (n : Nat) :
    receive_exact stream sched n = none ∨
      ∃ d, receive_exact stream sched n = some d ∧ d.length = n := by
  unfold receive_exact
  exact recvGo_none_or_exact stream sched n [] (by simp)

end RemoDesk
